import Mathlib

/-!
Verification development for the semantic type inference and conversion engine
in `featuretools/utils/entity_utils.py`.

The Python source is shallowly embedded: columns are lists of values with an
explicit storage dtype, pandas coercions (`to_numeric`, `to_datetime`,
`astype`, `map`) are modelled as executable Lean functions on that value type,
and fallible operations return `Except String`.  Randomized sampling
(`Series.sample`) is abstracted as an explicit sampler parameter.
-/

namespace FT

/-- Semantic variable types.  Modelled from the spec: the class hierarchy lives
in `featuretools.variable_types`, outside the embedded source file.  The spec
describes a closed taxonomy with a `Discrete` family containing `Categorical`
and `Text`; `Boolean`, `Numeric`, `Datetime`, `LatLong` and `Unknown` are
separate. -/
inductive VType where
  | Unknown
  | Boolean
  | Numeric
  | Datetime
  | Discrete
  | Categorical
  | Text
  | LatLong
deriving DecidableEq

/-- Python `issubclass` on the variable-type taxonomy.  Modelled from the spec:
`Categorical` and `Text` are the kinds of `Discrete`; every type is a subclass
of itself. -/
def isSub (t u : VType) : Bool :=
  t == u || (t == VType.Categorical && u == VType.Discrete)
    || (t == VType.Text && u == VType.Discrete)

/-- Canonical name string of a type (`type_string` in the source's taxonomy).
Modelled from the spec: "the resolved semantic type's canonical name string". -/
def typeString : VType → String
  | VType.Unknown => "unknown"
  | VType.Boolean => "boolean"
  | VType.Numeric => "numeric"
  | VType.Datetime => "datetime"
  | VType.Discrete => "discrete"
  | VType.Categorical => "categorical"
  | VType.Text => "text"
  | VType.LatLong => "latlong"

/-- Column cell values: booleans, strings, numbers (exact rationals stand in
for machine floats), native timestamp objects, coordinate pairs, and the
scalar missing marker `NaN`. -/
inductive Val where
  | vBool (b : Bool)
  | vStr (s : String)
  | vNum (q : ℚ)
  | vDatetime (t : ℤ)
  | vPair (a b : Option ℚ)
  | vNaN
deriving DecidableEq

/-- Storage dtypes a column can carry. -/
inductive Dtype where
  | object
  | bool
  | int64
  | float64
  | category
  | datetime64
  | timedelta64
deriving DecidableEq

/-- The pandas `.dtype.name` string of each storage dtype. -/
def dtypeName : Dtype → String
  | Dtype.object => "object"
  | Dtype.bool => "bool"
  | Dtype.int64 => "int64"
  | Dtype.float64 => "float64"
  | Dtype.category => "category"
  | Dtype.datetime64 => "datetime64[ns]"
  | Dtype.timedelta64 => "timedelta64[ns]"

/-- Does `pat` match the front of the character list? -/
def leadMatch : List Char → List Char → Bool
  | [], _ => true
  | _ :: _, [] => false
  | a :: as, b :: bs => a == b && leadMatch as bs

/-- Does the character list contain `pat` as a contiguous run? -/
def hasSub (pat : List Char) : List Char → Bool
  | [] => leadMatch pat []
  | c :: rest => leadMatch pat (c :: rest) || hasSub pat rest

/-- Python `s.find(pat) > -1`, i.e. substring containment. -/
def strContains (s pat : String) : Bool := hasSub pat.data s.data

/-- A column: a storage dtype plus an ordered list of cell values. -/
structure Col where
  dtype : Dtype
  vals : List Val
deriving DecidableEq

/-- A dataframe: possibly lazily partitioned (Dask), with named columns. -/
structure DF where
  isDask : Bool
  cols : List (String × Col)

/-- Is a value the scalar missing marker? -/
def isna : Val → Bool
  | Val.vNaN => true
  | _ => false

/-- Is a value a native Python `datetime` object? -/
def isPyDatetime : Val → Bool
  | Val.vDatetime _ => true
  | _ => false

/-- Digits of a character run as a number. -/
def charsToNat (l : List Char) : Nat := l.foldl (fun acc ch => acc * 10 + (ch.toNat - 48)) 0

/-- Digits of a non-empty all-digit character run, `none` otherwise. -/
def parseDigits : List Char → Option Nat
  | [] => none
  | c :: rest =>
    if (c :: rest).all (fun ch => ch.isDigit) then some (charsToNat (c :: rest))
    else none

/-- Model of the numeric-literal strings the strict numeric parse accepts:
an optional leading minus sign followed by digits. -/
def strToInt (s : String) : Option ℤ :=
  match s.data with
  | [] => none
  | c :: rest =>
    if c == Char.ofNat 45 then (parseDigits rest).map (fun n => -(n : ℤ))
    else (parseDigits (c :: rest)).map (fun n => (n : ℤ))

/-- Model of `pd.to_numeric(v, errors="coerce")` on one cell: numbers and
booleans coerce, integer-literal strings parse, everything unparseable
(including non-numeric strings, datetime objects and tuples) becomes `NaN`. -/
def to_numeric_coerce : Val → Val
  | Val.vNum q => Val.vNum q
  | Val.vBool b => Val.vNum (if b then 1 else 0)
  | Val.vStr s =>
    match strToInt s with
    | some n => Val.vNum (n : ℚ)
    | none => Val.vNaN
  | Val.vDatetime _ => Val.vNaN
  | Val.vPair _ _ => Val.vNaN
  | Val.vNaN => Val.vNaN

/-- Model of whether `pd.to_numeric(v, errors="raise")` raises on one cell:
exactly the non-missing cells that the coercing parse would turn into `NaN`. -/
def to_numeric_raises (v : Val) : Bool :=
  !isna v && isna (to_numeric_coerce v)

/-- Split a character list on a separator character. -/
def chunksBy (c : Char) : List Char → List (List Char)
  | [] => [[]]
  | a :: as =>
    let r := chunksBy c as
    if a == c then [] :: r
    else
      match r with
      | [] => [[a]]
      | g :: gs => (a :: g) :: gs

/-- Non-empty all-digit character run. -/
def allDigits (l : List Char) : Bool := !l.isEmpty && l.all (fun ch => ch.isDigit)

/-- Simplified model of the permissive `pd.to_datetime` string parser: accepts
dash-separated all-digit date strings.  The claims never depend on exactly
which strings parse, only on when the parse is attempted. -/
def dateParses (s : String) : Bool :=
  match chunksBy '-' s.data with
  | [y, m, d] => allDigits y && allDigits m && allDigits d
  | _ => false

/-- Simplified encoding of a parsed date string as a timestamp value. -/
def dateEncode (s : String) : ℤ :=
  match chunksBy '-' s.data with
  | [y, m, d] => Int.ofNat (charsToNat y * 10000 + charsToNat m * 100 + charsToNat d)
  | _ => 0

/-- Model of whether strict `pd.to_datetime(v, errors="raise")` succeeds on one
cell: timestamps, parseable date strings and epoch numbers succeed; missing
values pass through as `NaT`. -/
def to_datetime_ok : Val → Bool
  | Val.vDatetime _ => true
  | Val.vStr s => dateParses s
  | Val.vNum _ => true
  | Val.vNaN => true
  | Val.vBool _ => false
  | Val.vPair _ _ => false

/-- Floor of a rational as an integer, via floor division of numerator by
denominator (kernel-reducible, unlike the `FloorRing` instance). -/
def ratFloorInt (q : ℚ) : ℤ := Int.fdiv q.num (q.den : ℤ)

/-- Model of the `pd.to_datetime` cast of one cell.  The remaining cases
(booleans, tuples) are rejected by `to_datetime_ok`, so the strict cast below
never reaches them; they are mapped to a dummy timestamp for totality. -/
def to_datetime_cast : Val → Val
  | Val.vNaN => Val.vNaN
  | Val.vDatetime t => Val.vDatetime t
  | Val.vStr s => Val.vDatetime (dateEncode s)
  | Val.vNum q => Val.vDatetime (ratFloorInt q)
  | Val.vBool _ => Val.vDatetime 0
  | Val.vPair _ _ => Val.vDatetime 0

/-- Python equality used by dict lookups: booleans compare equal to the
numbers 0/1, `NaN` is not equal to anything (including itself), everything
else compares structurally. -/
def pyEq : Val → Val → Bool
  | Val.vBool a, Val.vBool b => a == b
  | Val.vNum a, Val.vNum b => a == b
  | Val.vBool a, Val.vNum b => (if a then (1 : ℚ) else 0) == b
  | Val.vNum a, Val.vBool b => a == (if b then (1 : ℚ) else 0)
  | Val.vStr a, Val.vStr b => a == b
  | Val.vDatetime a, Val.vDatetime b => a == b
  | Val.vPair a b, Val.vPair c d => a == c && b == d
  | _, _ => false

/-- Keyword conversion parameters (`**kwargs` of `convert_variable_data`):
an optional date format string and optional boolean value labels. -/
structure ConvKwargs where
  format : Option String
  true_val : Option Val
  false_val : Option Val
deriving DecidableEq

/-- Conversion call with no keyword arguments. -/
def noKw : ConvKwargs := ⟨none, none, none⟩

/-- The dict literal built in the `Boolean` branch of `convert_variable_data`:
`{true_val: True, false_val: False, True: True, False: False}` with the
labels defaulting to the native boolean literals. -/
def booleanMapPairs (kw : ConvKwargs) : List (Val × Val) :=
  [(kw.true_val.getD (Val.vBool true), Val.vBool true),
   (kw.false_val.getD (Val.vBool false), Val.vBool false),
   (Val.vBool true, Val.vBool true),
   (Val.vBool false, Val.vBool false)]

/-- Python dict lookup for a dict built from an ordered list of bindings:
a later binding of an equal key overwrites an earlier one, and key equality
is Python `==`. -/
def dictLookup (pairs : List (Val × Val)) (v : Val) : Option Val :=
  (pairs.reverse.find? (fun p => pyEq p.1 v)).map (fun p => p.2)

/-- Elementwise model of `.astype(np.bool)`: Python truthiness.  Crucially,
`bool(nan)` is `True`, so the missing marker is coerced to `True`. -/
def astype_bool_val : Val → Val
  | Val.vBool b => Val.vBool b
  | Val.vNaN => Val.vBool true
  | Val.vNum q => Val.vBool (decide (q ≠ 0))
  | Val.vStr s => Val.vBool (decide (s ≠ ""))
  | Val.vDatetime _ => Val.vBool true
  | Val.vPair _ _ => Val.vBool true

/-- One cell of `df[column_id].map(map_dict).astype(np.bool)`: dict lookup
(missing on lookup failure), then the boolean cast. -/
def booleanMapVal (kw : ConvKwargs) (v : Val) : Val :=
  astype_bool_val ((dictLookup (booleanMapPairs kw) v).getD Val.vNaN)

/-- Result dtype of `pd.to_numeric`: floats when any value is missing,
integers otherwise.  Either way a recognized numeric dtype. -/
def numericResultDtype (vals : List Val) : Dtype :=
  if vals.any isna then Dtype.float64 else Dtype.int64

/-- Strict `pd.to_datetime` over a whole column: raises if any cell fails,
otherwise casts every cell (missing cells become `NaT`). -/
def toDatetimeColumn (column : List Val) : Except String (List Val) :=
  if column.all (fun v => isna v || to_datetime_ok v) then
    Except.ok (column.map to_datetime_cast)
  else Except.error "to_datetime: unable to parse"

/-- Embedding of `convert_variable_data(df, column_id, new_type, **kwargs)`
restricted to the one column it touches.  `isDask` distinguishes the
`dd.DataFrame` paths (no emptiness short-circuit, no lossy-conversion guard)
from the materialized pandas paths. -/
def convert_variable_data (isDask : Bool) (col : Col) (new_type : VType)
    (kw : ConvKwargs) : Except String Col :=
  let empty := if isDask then false else col.vals.isEmpty
  if empty then Except.ok col
  else if new_type = VType.Numeric then
    if isDask then
      let newVals := col.vals.map to_numeric_coerce
      Except.ok ⟨numericResultDtype newVals, newVals⟩
    else
      let orig_nonnull := (col.vals.filter (fun v => !isna v)).length
      let newVals := col.vals.map to_numeric_coerce
      let nonnull := (newVals.filter (fun v => !isna v)).length
      if nonnull = 0 ∧ orig_nonnull ≠ 0 then
        Except.error "Attempted to convert all string column to numeric"
      else Except.ok ⟨numericResultDtype newVals, newVals⟩
  else if isSub new_type VType.Datetime then
    (toDatetimeColumn col.vals).map (fun newVals => ⟨Dtype.datetime64, newVals⟩)
  else if new_type = VType.Boolean then
    Except.ok ⟨Dtype.bool, col.vals.map (booleanMapVal kw)⟩
  else if !isSub new_type VType.Discrete then
    Except.error "Cannot convert column"
  else Except.ok col

/-- The recognized numeric storage names (`PandasTypes._pandas_numerics`).
Modelled from the spec: the `PandasTypes` constants live outside the embedded
source file; the spec calls them "the recognized numeric representations". -/
def pandasNumerics : List Dtype := [Dtype.int64, Dtype.float64]

/-- The recognized timestamp storage names (`PandasTypes._pandas_datetimes`).
Modelled from the spec: "a recognized timestamp representation". -/
def pandasDatetimes : List Dtype := [Dtype.datetime64]

/-- Elementwise `replace_latlong_nan`: replace each scalar missing value with
an explicit missing pair `(NaN, NaN)`. -/
def replace_latlong_nan (values : List Val) : List Val :=
  values.map (fun v => if isna v then Val.vPair none none else v)

/-- One iteration of the loop body of `convert_all_variable_data` on the
column named by the entry, instrumented with the number of times it invokes
the Type Converter `convert_variable_data`.  `current_type` is read once
before the branch tests, exactly as in the source. -/
def convertEntryInstr (isDask : Bool) (col : Col) (t : VType) (kw : ConvKwargs) :
    Except String (Col × Nat) :=
  let current_type := col.dtype
  let s1 : Except String (Col × Nat) :=
    if isSub t VType.Numeric && !(pandasNumerics.contains current_type) then
      Except.map (fun c => (c, 1)) (convert_variable_data isDask col t kw)
    else Except.ok (col, 0)
  let s2 : Except String (Col × Nat) :=
    match s1 with
    | Except.error e => Except.error e
    | Except.ok (c1, n1) =>
      if isSub t VType.Discrete && !(current_type == Dtype.category) then
        Except.map (fun c => (c, n1 + 1)) (convert_variable_data isDask c1 t kw)
      else Except.ok (c1, n1)
  let s3 : Except String (Col × Nat) :=
    match s2 with
    | Except.error e => Except.error e
    | Except.ok (c2, n2) =>
      if isSub t VType.Datetime && !(pandasDatetimes.contains current_type) then
        Except.map (fun c => (c, n2 + 1)) (convert_variable_data isDask c2 t kw)
      else Except.ok (c2, n2)
  match s3 with
  | Except.error e => Except.error e
  | Except.ok (c3, n3) =>
    if isSub t VType.LatLong && !isDask && c3.vals.any isna then
      Except.ok (⟨c3.dtype, replace_latlong_nan c3.vals⟩, n3)
    else Except.ok (c3, n3)

/-- Replace the binding of `var` in the dataframe (Python `df[var] = ...`). -/
def dfUpdate : List (String × Col) → String → Col → List (String × Col)
  | [], _, _ => []
  | (n, c) :: rest, var, col =>
    if var == n then (n, col) :: rest else (n, c) :: dfUpdate rest var col

/-- Embedding of `convert_all_variable_data(df, variable_types)`: iterate the
type-assignment entries in order; a bare type corresponds to `noKw`, a
`(type, kwargs)` tuple to its keyword arguments; a missing column raises
`LookupError`.  The LatLong warning accompanying the missing-pair
substitution is a non-fatal side effect and is not tracked. -/
def convert_all_variable_data (isDask : Bool) (df : List (String × Col)) :
    List (String × VType × ConvKwargs) → Except String (List (String × Col))
  | [] => Except.ok df
  | (var_id, desired_type, type_args) :: rest =>
    match df.lookup var_id with
    | none => Except.error ("Variable ID " ++ var_id ++ " not in DataFrame")
    | some col =>
      match convertEntryInstr isDask col desired_type type_args with
      | Except.error e => Except.error e
      | Except.ok (colNew, _) =>
        convert_all_variable_data isDask (dfUpdate df var_id colNew) rest

/-- Embedding of `col_is_datetime(col)`, instrumented: the first component is
the returned boolean, the second records whether the permissive
`pd.to_datetime` parse was attempted. -/
def col_is_datetime_instr (col : Col) : Bool × Bool :=
  if strContains (dtypeName col.dtype) "datetime"
      || (!col.vals.isEmpty && isPyDatetime (col.vals.headD Val.vNaN)) then
    (true, false)
  else
    let dropped_na := col.vals.filter (fun v => !isna v)
    if dropped_na.any to_numeric_raises then
      if strContains (dtypeName col.dtype) "str"
          || strContains (dtypeName col.dtype) "object" then
        (dropped_na.all to_datetime_ok, true)
      else (false, false)
    else (false, false)

/-- The boolean result of `col_is_datetime`. -/
def col_is_datetime (col : Col) : Bool := (col_is_datetime_instr col).1

/-- A sampler abstracts `Series.sample(n)`: given the column values and a
requested size, return the drawn sample.  Randomness is outside the
embedding; theorems about sampling quantify over the sampler. -/
def Sampler : Type := List Val → Nat → List Val

/-- The deterministic sampler used for concrete evaluation: take the first
`n` values. -/
def takeSampler : Sampler := fun vs n => vs.take n

/-- Model of `pdtypes.is_categorical_dtype`. -/
def isCategoricalDtype (d : Dtype) : Bool := d == Dtype.category

/-- Model of `pdtypes.is_numeric_dtype`: numeric storage, including the
boolean dtype (pandas counts `bool` as numeric; in the inference cascade the
`bool` dtype is caught by an earlier rule). -/
def isNumericDtype (d : Dtype) : Bool :=
  d == Dtype.int64 || d == Dtype.float64 || d == Dtype.bool

/-- `Series.nunique(dropna=False)`: number of distinct values, missing
included. -/
def nuniqueDropnaFalse (vals : List Val) : Nat := vals.dedup.length

/-- The mean string length probe of the object-dtype rule:
`sample.str.len().mean()`.  The `.str` accessor raises `AttributeError`
(modelled as `none`) when the sampled objects are not strings; missing
values are skipped by `mean`, and an all-missing sample has mean `NaN`
(also modelled as `none`: `NaN > 50` is false either way). -/
def avgStrLen (sample : List Val) : Option ℚ :=
  if sample.all (fun v =>
      match v with
      | Val.vStr _ => true
      | Val.vNaN => true
      | _ => false) then
    let lens := sample.filterMap (fun v =>
      match v with
      | Val.vStr s => some ((s.length : ℚ))
      | _ => none)
    if lens.isEmpty then none
    else some (lens.sum / (lens.length : ℚ))
  else none

/-- The uniqueness ratio of the final sampling rule:
`sample.size / len(sample.unique())`. -/
def percent_unique (sample : List Val) : ℚ :=
  (sample.length : ℚ) / ((sample.dedup).length : ℚ)

/-- The final sampling rule of the inference cascade:
`Categorical` when the ratio is below `0.05`, else `Numeric`. -/
def finalSampleRule (sample : List Val) : VType :=
  if percent_unique sample < 5 / 100 then VType.Categorical else VType.Numeric

/-- The per-column heuristic cascade of `infer_variable_types` (everything
after the explicit-type skip and the Dask guard).  `st` is the value the
mutable `inferred_type` variable holds when the column is reached; when no
rule matches, the source leaves `inferred_type` untouched, so the result is
`st`. -/
def inferOne (sampler : Sampler) (vids link_vars : List String) (st : VType)
    (name : String) (col : Col) : VType :=
  if vids.contains name then
    if col_is_datetime col then VType.Datetime else VType.Numeric
  else if link_vars.contains name then VType.Categorical
  else if col.dtype = Dtype.object then
    if col.vals.length = 0 then VType.Categorical
    else if col_is_datetime col then VType.Datetime
    else
      let sample := sampler col.vals (min 10000 col.vals.length)
      match avgStrLen sample with
      | some avg_length => if avg_length > 50 then VType.Text else VType.Categorical
      | none => VType.Categorical
  else if col.dtype = Dtype.bool then VType.Boolean
  else if isCategoricalDtype col.dtype then VType.Categorical
  else if isNumericDtype col.dtype then VType.Numeric
  else if col_is_datetime col then VType.Datetime
  else if col.vals.length ≠ 0 then
    finalSampleRule (sampler col.vals (min 10000 (nuniqueDropnaFalse col.vals)))
  else st

/-- The error message of the Dask guard in `infer_variable_types`. -/
def daskErrMsg : String :=
  "Variable types cannot be inferred from Dask DataFrames, use variable_types to provide type metadata for entity"

/-- The column loop of `infer_variable_types`: columns already present in
`variable_types` are skipped before anything else (including the Dask
guard); otherwise a Dask dataframe raises; otherwise the cascade assigns a
type, which also becomes the next value of the mutable `inferred_type`. -/
def inferGo (sampler : Sampler) (isDask : Bool)
    (link_vars variable_types vids : List String) :
    List (String × Col) → VType → Except String (List (String × VType))
  | [], _ => Except.ok []
  | (name, col) :: rest, st =>
    if variable_types.contains name then
      inferGo sampler isDask link_vars variable_types vids rest st
    else if isDask then Except.error daskErrMsg
    else
      let t := inferOne sampler vids link_vars st name col
      Except.map (fun l => (name, t) :: l)
        (inferGo sampler isDask link_vars variable_types vids rest t)

/-- Embedding of `infer_variable_types(df, link_vars, variable_types,
time_index, secondary_time_index)`.  `variable_types` contributes only its
key set to inference, so it is passed as the list of explicitly typed column
names.  `vids_to_assume_datetime` is `[time_index]` (a `None` time index can
never equal a column name, so it is dropped) extended with the first key of
the secondary time index mapping.  The mutable `inferred_type` starts as
`Unknown` once, before the loop. -/
def infer_variable_types (sampler : Sampler) (df : DF)
    (link_vars variable_types : List String) (time_index : Option String)
    (secondary_time_index : List (String × List String)) :
    Except String (List (String × VType)) :=
  let vids : List String :=
    (match time_index with
     | some t => [t]
     | none => []) ++
    (match secondary_time_index with
     | [] => []
     | p :: _ => [p.1])
  inferGo sampler df.isDask link_vars variable_types vids df.cols VType.Unknown

/-- Statistic values: exact numbers (`none` models `NaN`), a symbolic square
root (for `std`, whose exact value is irrational in general), counts, raw
cell values (for `mode`) and name strings (for `variable_type`). -/
inductive StatVal where
  | num (q : Option ℚ)
  | sqrtOf (q : Option ℚ)
  | count (n : Nat)
  | val (v : Val)
  | str (s : String)
deriving DecidableEq

/-- The `COMMON_STATISTICS` list of `generate_statistics`. -/
def COMMON_STATISTICS : List String := ["count", "nunique"]

/-- Python `list.remove` mutates in place and returns `None`; the source's
`applicable = applicable.remove("nunique")` therefore assigns `None`. -/
def pyListRemove (_ : List String) (_ : String) : Option (List String) := none

/-- The source guards the `nunique` removal with `isinstance(v_type, LatLong)`.
`v_type` is a variable-type *class*; classes are instances of `type`, never of
`LatLong`, so the guard evaluates to `False` for every `v_type`. -/
def vtype_isinstance_LatLong (_ : VType) : Bool := false

/-- Non-missing count: `Series.count`. -/
def aggCount (column : List Val) : Nat := (column.filter (fun v => !isna v)).length

/-- Distinct non-missing count: `Series.nunique`. -/
def aggNunique (column : List Val) : Nat :=
  ((column.filter (fun v => !isna v)).dedup).length

/-- `column.agg(keys).to_dict()` for the common statistic names. -/
def aggCommon (column : List Val) (keys : List String) : List (String × StatVal) :=
  keys.filterMap (fun k =>
    if k = "count" then some (k, StatVal.count (aggCount column))
    else if k = "nunique" then some (k, StatVal.count (aggNunique column))
    else none)

/-- The rational cells of a column. -/
def ratsOf (column : List Val) : List ℚ :=
  column.filterMap (fun v =>
    match v with
    | Val.vNum q => some q
    | _ => none)

/-- Maximum of a list of rationals, `NaN` (`none`) when empty. -/
def listMax : List ℚ → Option ℚ
  | [] => none
  | x :: xs =>
    match listMax xs with
    | none => some x
    | some m => some (max x m)

/-- Minimum of a list of rationals, `NaN` (`none`) when empty. -/
def listMin : List ℚ → Option ℚ
  | [] => none
  | x :: xs =>
    match listMin xs with
    | none => some x
    | some m => some (min x m)

/-- Mean of a list of rationals, `NaN` (`none`) when empty. -/
def listMean (xs : List ℚ) : Option ℚ :=
  if xs.isEmpty then none else some (xs.sum / (xs.length : ℚ))

/-- Sample variance (`ddof = 1`), `NaN` (`none`) on fewer than two points.
`std` is its square root, represented symbolically by `StatVal.sqrtOf`. -/
def listVariance : List ℚ → Option ℚ
  | [] => none
  | [_] => none
  | xs =>
    let μ := xs.sum / (xs.length : ℚ)
    some ((xs.map (fun x => (x - μ) ^ 2)).sum / ((xs.length : ℚ) - 1))

/-- Model of `Series.quantile(q)` with pandas' default linear interpolation
over the sorted non-missing values; `NaN` (`none`) on an empty series. -/
def seriesQuantile (xs : List ℚ) (q : ℚ) : Option ℚ :=
  match xs.insertionSort (· ≤ ·) with
  | [] => none
  | y :: ys =>
    let s := y :: ys
    let n := s.length
    let pos := q * ((n : ℚ) - 1)
    let i := (ratFloorInt pos).toNat
    let frac := pos - (i : ℚ)
    let lo := s.getD i 0
    let hi := s.getD (i + 1) lo
    some (lo + frac * (hi - lo))

/-- Elementwise `astype(float)`: raises on values Python's `float()` cannot
consume. -/
def astypeFloatVal : Val → Except String Val
  | Val.vNum q => Except.ok (Val.vNum q)
  | Val.vNaN => Except.ok Val.vNaN
  | Val.vBool b => Except.ok (Val.vNum (if b then 1 else 0))
  | Val.vStr s =>
    match strToInt s with
    | some n => Except.ok (Val.vNum (n : ℚ))
    | none => Except.error "could not convert string to float"
  | Val.vDatetime _ => Except.error "float() argument must be a number"
  | Val.vPair _ _ => Except.error "float() argument must be a number"

/-- `column.astype(float)` over a whole column. -/
def astypeFloat (column : List Val) : Except String (List Val) :=
  column.mapM astypeFloatVal

/-- Number of occurrences of a value in a list. -/
def countOccs (v : Val) (vs : List Val) : Nat := (vs.filter (fun w => w == v)).length

/-- Model of `Series.mode()[0]`: the first value (in column order) attaining
the maximal multiplicity among non-missing values; `none` when the column
has no non-missing value, in which case the `mode` key is omitted.  Pandas
orders tied modes by sorting; the claims never examine ties. -/
def modePy (column : List Val) : Option Val :=
  let nonNa := column.filter (fun v => !isna v)
  let best := (nonNa.map (fun w => countOccs w nonNa)).foldr max 0
  nonNa.find? (fun v => countOccs v nonNa == best)

/-- Maximum of a list of integers, `NaN` (`none`) when empty. -/
def intListMax : List ℤ → Option ℤ
  | [] => none
  | x :: xs =>
    match intListMax xs with
    | none => some x
    | some m => some (max x m)

/-- Minimum of a list of integers, `NaN` (`none`) when empty. -/
def intListMin : List ℤ → Option ℤ
  | [] => none
  | x :: xs =>
    match intListMin xs with
    | none => some x
    | some m => some (min x m)

/-- The timestamp cells of a column. -/
def intsOf (column : List Val) : List ℤ :=
  column.filterMap (fun v =>
    match v with
    | Val.vDatetime t => some t
    | _ => none)

/-- The type-dispatched head of the statistics loop body: the per-type cast
of the column and the type-specific statistics.  Mirrors the
`if v_type == Boolean ... elif ... elif v_type == Datetime` chain, including
the literal index choices `quant_values[0]`, `quant_values[2]`,
`quant_values[2]` of the quartile keys. -/
def statsBranch (col : Col) (v_type : VType) :
    Except String (List Val × List (String × StatVal)) :=
  let column := col.vals
  if v_type = VType.Boolean then
    let c := column.map astype_bool_val
    Except.ok (c,
      [("num_false", StatVal.count (c.countP (fun v => v == Val.vBool false))),
       ("num_true", StatVal.count (c.countP (fun v => v == Val.vBool true)))])
  else if v_type = VType.Numeric then
    match astypeFloat column with
    | Except.error e => Except.error e
    | Except.ok c =>
      let clean := ratsOf c
      let quant_values :=
        [seriesQuantile clean (25 / 100), seriesQuantile clean (50 / 100),
         seriesQuantile clean (75 / 100)]
      Except.ok (c,
        [("max", StatVal.num (listMax clean)),
         ("min", StatVal.num (listMin clean)),
         ("mean", StatVal.num (listMean clean)),
         ("std", StatVal.sqrtOf (listVariance clean)),
         ("first_quartile", StatVal.num (quant_values.getD 0 none)),
         ("second_quartile", StatVal.num (quant_values.getD 2 none)),
         ("third_quartile", StatVal.num (quant_values.getD 2 none))])
  else if v_type = VType.Discrete ∨ isSub v_type VType.Discrete then
    Except.ok (column, [])
  else if v_type = VType.Datetime then
    match toDatetimeColumn column with
    | Except.error e => Except.error e
    | Except.ok c =>
      let ints := intsOf c
      Except.ok (c,
        [("max", StatVal.num ((intListMax ints).map (fun t => (t : ℚ)))),
         ("min", StatVal.num ((intListMin ints).map (fun t => (t : ℚ)))),
         ("mean", StatVal.num (listMean (ints.map (fun t => (t : ℚ)))))])
  else Except.ok (column, [])

/-- The tail of the statistics loop body: the common statistics (with the
dead `isinstance(v_type, LatLong)` removal guard embedded as it evaluates),
`nan_count`, the optional `mode`, and `variable_type`.  If the removal guard
ever fired, `applicable` would become `None` and `column.agg(None)` would
raise; that arm is unreachable because the guard is constantly false. -/
def statsTail (v_type : VType) (column : List Val)
    (typed : List (String × StatVal)) : Except String (List (String × StatVal)) :=
  let applicable : Option (List String) :=
    if vtype_isinstance_LatLong v_type then pyListRemove COMMON_STATISTICS "nunique"
    else some COMMON_STATISTICS
  match applicable with
  | none => Except.error "TypeError: column.agg(None)"
  | some keys =>
    Except.ok
      (typed ++ aggCommon column keys
        ++ [("nan_count", StatVal.count (column.countP (fun v => isna v)))]
        ++ (match modePy column with
            | some m => [("mode", StatVal.val m)]
            | none => [])
        ++ [("variable_type", StatVal.str (typeString v_type))])

/-- The statistics computed for one column of `generate_statistics`. -/
def statsForColumn (col : Col) (v_type : VType) :
    Except String (List (String × StatVal)) :=
  match statsBranch col v_type with
  | Except.error e => Except.error e
  | Except.ok (column, typed) => statsTail v_type column typed

/-- Embedding of `generate_statistics(data, variable_types)` on an already
materialized dataframe, returning the dictionary form.  The preamble of the
source (rejecting an `EntitySet`, computing a Dask frame, unwrapping an
`Entity`, and the optional tabular rendering) narrows the input to exactly
such a dataframe and is not re-modelled. -/
def generate_statistics (data : List (String × Col))
    (variable_types : List (String × VType)) :
    Except String (List (String × List (String × StatVal))) :=
  match variable_types with
  | [] => Except.ok []
  | (column_name, v_type) :: rest =>
    match data.lookup column_name with
    | none => Except.error ("KeyError: " ++ column_name)
    | some col =>
      match statsForColumn col v_type with
      | Except.error e => Except.error e
      | Except.ok values =>
        match generate_statistics data rest with
        | Except.error e => Except.error e
        | Except.ok restStats => Except.ok ((column_name, values) :: restStats)

/-- Extract the success value of an `Except`. -/
def okValue {α : Type} : Except String α → Option α
  | Except.ok a => some a
  | Except.error _ => none

/-- The storage-compatibility predicate of claim C6: numeric storage for a
Numeric target, categorical-coded storage for a Discrete-kind target,
timestamp storage for a Datetime target.  Targets of any other kind are
outside the claim's scope, so they count as not compatible. -/
def storageCompatible (c : Col) (t : VType) : Bool :=
  if isSub t VType.Numeric then pandasNumerics.contains c.dtype
  else if isSub t VType.Discrete then c.dtype == Dtype.category
  else if isSub t VType.Datetime then pandasDatetimes.contains c.dtype
  else false

/-! ## Helper lemmas -/

theorem filterNilOfAll {α : Type} {p : α → Bool} {l : List α}
    (h : ∀ v ∈ l, p v = false) : l.filter p = [] := by
  induction l with
  | nil => rfl
  | cons x xs ih =>
    have hx := h x (List.mem_cons_self x xs)
    simp [List.filter_cons, hx,
      ih (fun v hv => h v (List.mem_cons_of_mem x hv))]

theorem filterSelfOfAll {α : Type} {p : α → Bool} {l : List α}
    (h : ∀ v ∈ l, p v = true) : l.filter p = l := by
  induction l with
  | nil => rfl
  | cons x xs ih =>
    have hx := h x (List.mem_cons_self x xs)
    simp [List.filter_cons, hx,
      ih (fun v hv => h v (List.mem_cons_of_mem x hv))]

theorem filterLenNeZero {α : Type} {p : α → Bool} {l : List α} {v : α}
    (hv : v ∈ l) (hp : p v = true) : (l.filter p).length ≠ 0 := by
  have hmem : v ∈ l.filter p := List.mem_filter.mpr ⟨hv, hp⟩
  intro h0
  rw [List.length_eq_zero] at h0
  rw [h0] at hmem
  exact absurd hmem (List.not_mem_nil v)

/-! ## Claim theorems -/

/-- Claim C10: when the type assignment gives a column the `Boolean` type, the
Conversion Driver's loop body never invokes the Type Converter (the
instrumentation count is 0) and returns the column unchanged, because
`Boolean` is not a kind of `Numeric`, `Discrete`, `Datetime` or `LatLong`. -/
theorem boolean_target_driver_skips_converter (isDask : Bool) (col : Col)
    (kw : ConvKwargs) :
    convertEntryInstr isDask col VType.Boolean kw = Except.ok (col, 0) := rfl

/-- Claim C5 (code bug): the claim says a column matching no inference rule is
assigned `Unknown` regardless of the preceding columns.  In the source,
`inferred_type = Unknown` is initialized once before the loop, so such a
column inherits the previous column's inferred type.  On a 0-row dataframe
with columns `a : int64` and `b : timedelta64`, column `b` matches no rule
(its dtype is neither object, bool, categorical nor numeric, the Datetime
Detector rejects it, and it is empty) yet it is assigned `Numeric` — the
stale value left over from `a` — instead of `Unknown`. -/
theorem stale_inferred_type_fallthrough :
    infer_variable_types takeSampler
        ⟨false, [("a", ⟨Dtype.int64, []⟩), ("b", ⟨Dtype.timedelta64, []⟩)]⟩
        [] [] none []
      = Except.ok [("a", VType.Numeric), ("b", VType.Numeric)]
    ∧ VType.Numeric ≠ VType.Unknown := ⟨rfl, by decide⟩

/-- Claim C3 (code bug): the claim says the statistics of a `LatLong` column
omit `nunique`.  In the source the removal is guarded by
`isinstance(v_type, LatLong)`, which compares a variable-type *class* against
`LatLong` and is therefore always false (and even if it fired,
`applicable.remove(...)` returns `None`), so the statistics mapping of a
`LatLong` column does contain `nunique`. -/
theorem latlong_statistics_include_nunique :
    generate_statistics
        [("coords", ⟨Dtype.object,
            [Val.vPair (some 1) (some 2), Val.vPair (some 3) (some 4)]⟩)]
        [("coords", VType.LatLong)]
      = Except.ok [("coords",
          [("count", StatVal.count 2), ("nunique", StatVal.count 2),
           ("nan_count", StatVal.count 0),
           ("mode", StatVal.val (Val.vPair (some 1) (some 2))),
           ("variable_type", StatVal.str "latlong")])] := rfl

/-- Claim C1, counterexample: converting the column `["Y", "N", "X"]` to
`Boolean` with `true_val = "Y"`, `false_val = "N"` yields
`[True, False, True]` — the out-of-lookup literal `"X"` ends as the
non-missing value `True`, not as a missing value, contradicting the claim
that values outside the lookup are missing after the conversion. -/
theorem boolean_outside_lookup_counterexample :
    convert_variable_data false
        ⟨Dtype.object, [Val.vStr "Y", Val.vStr "N", Val.vStr "X"]⟩
        VType.Boolean ⟨none, some (Val.vStr "Y"), some (Val.vStr "N")⟩
      = Except.ok ⟨Dtype.bool, [Val.vBool true, Val.vBool false, Val.vBool true]⟩
    ∧ isna (Val.vBool true) = false := ⟨rfl, rfl⟩

/-- Claim C1 (amended): every value of the input column is mapped through the
lookup built from `true_val`/`false_val` (defaulting to the native boolean
literals) plus the native booleans; a value outside the lookup is mapped to
a missing value by the lookup step, but the trailing `astype(np.bool)` cast
then coerces that missing value to `True`, so after the full conversion the
entry is `True`, not missing. -/
theorem boolean_conversion_amended (col : Col) (kw : ConvKwargs)
    (hne : col.vals ≠ []) :
    convert_variable_data false col VType.Boolean kw
      = Except.ok ⟨Dtype.bool, col.vals.map (booleanMapVal kw)⟩
    ∧ ∀ v : Val, (∀ p ∈ booleanMapPairs kw, pyEq p.1 v = false) →
        dictLookup (booleanMapPairs kw) v = none
        ∧ booleanMapVal kw v = Val.vBool true := by
  constructor
  · obtain ⟨d, vs⟩ := col
    cases vs with
    | nil => exact absurd rfl hne
    | cons x xs => rfl
  · intro v hv
    have hnone : dictLookup (booleanMapPairs kw) v = none := by
      rw [dictLookup, List.find?_eq_none.mpr, Option.map_none']
      intro p hp
      rw [List.mem_reverse] at hp
      simp [hv p hp]
    refine ⟨hnone, ?_⟩
    rw [booleanMapVal, hnone]
    rfl

/-- Witness for claim C1's amended theorem at the literal `"X"` with default
boolean labels. -/
theorem boolean_conversion_amended_witness :
    convert_variable_data false ⟨Dtype.object, [Val.vStr "X"]⟩ VType.Boolean noKw
      = Except.ok ⟨Dtype.bool, [Val.vStr "X"].map (booleanMapVal noKw)⟩
    ∧ booleanMapVal noKw (Val.vStr "X") = Val.vBool true := by
  have h := boolean_conversion_amended ⟨Dtype.object, [Val.vStr "X"]⟩ noKw (by decide)
  exact ⟨h.1, (h.2 (Val.vStr "X") (by decide)).2⟩

/-- Claim C2: on a non-empty materialized column, numeric conversion raises
exactly when the column had a non-missing value before coercion and none
after; an all-(non-numeric-)string column raises the lossy-conversion error,
and a column with at least one coercible value never raises. -/
theorem numeric_conversion_safety (col : Col) (kw : ConvKwargs)
    (hne : col.vals ≠ []) :
    ((∃ e, convert_variable_data false col VType.Numeric kw = Except.error e) ↔
      ((col.vals.filter (fun v => !isna v)).length ≠ 0
        ∧ ((col.vals.map to_numeric_coerce).filter (fun v => !isna v)).length = 0))
    ∧ ((∀ v ∈ col.vals, ∃ s, v = Val.vStr s ∧ strToInt s = none) →
        convert_variable_data false col VType.Numeric kw
          = Except.error "Attempted to convert all string column to numeric")
    ∧ ((∃ v ∈ col.vals, isna (to_numeric_coerce v) = false) →
        convert_variable_data false col VType.Numeric kw
          = Except.ok ⟨numericResultDtype (col.vals.map to_numeric_coerce),
              col.vals.map to_numeric_coerce⟩) := by
  obtain ⟨d, vs⟩ := col
  cases vs with
  | nil => exact absurd rfl hne
  | cons x xs =>
    have hred : convert_variable_data false ⟨d, x :: xs⟩ VType.Numeric kw
        = if (((x :: xs).map to_numeric_coerce).filter (fun v => !isna v)).length = 0
              ∧ ((x :: xs).filter (fun v => !isna v)).length ≠ 0
          then Except.error "Attempted to convert all string column to numeric"
          else Except.ok ⟨numericResultDtype ((x :: xs).map to_numeric_coerce),
              (x :: xs).map to_numeric_coerce⟩ := rfl
    refine ⟨?_, ?_, ?_⟩
    · rw [hred]
      split
      next hc => exact ⟨fun _ => ⟨hc.2, hc.1⟩, fun _ => ⟨_, rfl⟩⟩
      next hc =>
        constructor
        · rintro ⟨e, he⟩
          exact absurd he (by simp)
        · rintro ⟨hb, ha⟩
          exact absurd ⟨ha, hb⟩ hc
    · intro hall
      rw [hred, if_pos]
      constructor
      · have hnil : ((x :: xs).map to_numeric_coerce).filter (fun v => !isna v) = [] := by
          apply filterNilOfAll
          intro v hvm
          rw [List.mem_map] at hvm
          obtain ⟨w, hw, rfl⟩ := hvm
          obtain ⟨s, rfl, hs⟩ := hall w hw
          simp [to_numeric_coerce, hs, isna]
        rw [hnil]
        rfl
      · have hself : (x :: xs).filter (fun v => !isna v) = x :: xs := by
          apply filterSelfOfAll
          intro v hvm
          obtain ⟨s, rfl, _⟩ := hall v hvm
          rfl
        rw [hself]
        simp
    · rintro ⟨v, hv, hvc⟩
      rw [hred, if_neg]
      rintro ⟨h0, _⟩
      exact filterLenNeZero (List.mem_map_of_mem to_numeric_coerce hv) (by simp [hvc]) h0

/-- Witness for claim C2: an all-string column raises the lossy-conversion
error; a column with one coercible value converts successfully. -/
theorem numeric_conversion_safety_witness :
    convert_variable_data false ⟨Dtype.object, [Val.vStr "abc"]⟩ VType.Numeric noKw
      = Except.error "Attempted to convert all string column to numeric"
    ∧ convert_variable_data false ⟨Dtype.object, [Val.vStr "7", Val.vStr "abc"]⟩
        VType.Numeric noKw
      = Except.ok ⟨numericResultDtype ([Val.vStr "7", Val.vStr "abc"].map to_numeric_coerce),
          [Val.vStr "7", Val.vStr "abc"].map to_numeric_coerce⟩ := by
  have h1 := numeric_conversion_safety ⟨Dtype.object, [Val.vStr "abc"]⟩ noKw (by decide)
  have h2 := numeric_conversion_safety ⟨Dtype.object, [Val.vStr "7", Val.vStr "abc"]⟩
      noKw (by decide)
  refine ⟨h1.2.1 ?_, h2.2.2 ?_⟩
  · intro v hv
    rw [List.mem_singleton] at hv
    exact ⟨"abc", hv, by decide⟩
  · exact ⟨Val.vStr "7", by decide, by decide⟩

theorem percentUniqueGeOne {sample : List Val} (h : sample ≠ []) :
    1 ≤ percent_unique sample := by
  have hd : sample.dedup ≠ [] := by
    intro hnil
    rw [List.dedup_eq_nil] at hnil
    exact h hnil
  have hpos : 0 < ((sample.dedup).length : ℚ) := by
    exact_mod_cast List.length_pos.mpr hd
  rw [percent_unique, one_le_div hpos]
  exact_mod_cast (List.dedup_sublist sample).length_le

/-- Claim C9: any non-empty sample drawn for the final rule of the inference
cascade has at least as many elements as distinct values, so the computed
ratio `sample.size / len(unique)` is at least 1, never below 0.05, and a
column reaching this rule is always assigned `Numeric` (the `Categorical`
outcome is unreachable). -/
theorem final_sampling_rule_always_numeric (sampler : Sampler)
    (vids link_vars : List String) (st : VType) (name : String) (col : Col)
    (h1 : vids.contains name = false) (h2 : link_vars.contains name = false)
    (h3 : col.dtype ≠ Dtype.object) (h4 : col.dtype ≠ Dtype.bool)
    (h5 : isCategoricalDtype col.dtype = false)
    (h6 : isNumericDtype col.dtype = false)
    (h7 : col_is_datetime col = false) (h8 : col.vals.length ≠ 0)
    (h9 : sampler col.vals (min 10000 (nuniqueDropnaFalse col.vals)) ≠ []) :
    1 ≤ percent_unique (sampler col.vals (min 10000 (nuniqueDropnaFalse col.vals)))
    ∧ inferOne sampler vids link_vars st name col = VType.Numeric := by
  have hq := percentUniqueGeOne h9
  refine ⟨hq, ?_⟩
  have hnotlt :
      ¬ percent_unique (sampler col.vals (min 10000 (nuniqueDropnaFalse col.vals)))
          < 5 / 100 := by
    intro hlt
    linarith
  have h1m : name ∉ vids := by simpa using h1
  have h2m : name ∉ link_vars := by simpa using h2
  simp [inferOne, h1m, h2m, h3, h4, h5, h6, h7, h8, finalSampleRule, hnotlt]

/-- Witness for claim C9 on a one-value column of an unclassifiable storage
dtype, which falls through to the final sampling rule. -/
theorem final_sampling_rule_always_numeric_witness :
    1 ≤ percent_unique (takeSampler [Val.vStr "x"]
        (min 10000 (nuniqueDropnaFalse [Val.vStr "x"])))
    ∧ inferOne takeSampler [] [] VType.Unknown "z"
        ⟨Dtype.timedelta64, [Val.vStr "x"]⟩ = VType.Numeric := by
  exact final_sampling_rule_always_numeric takeSampler [] [] VType.Unknown "z"
    ⟨Dtype.timedelta64, [Val.vStr "x"]⟩ rfl rfl (by decide) (by decide) rfl rfl
    (by decide) (by decide) (by decide)

theorem inferGo_dask_all_covered (sampler : Sampler)
    (link vt vids : List String) :
    ∀ (cols : List (String × Col)) (st : VType),
      (∀ p ∈ cols, vt.contains p.1 = true) →
      inferGo sampler true link vt vids cols st = Except.ok [] := by
  intro cols
  induction cols with
  | nil => intro st _; rfl
  | cons c rest ih =>
    intro st h
    obtain ⟨n, col⟩ := c
    have hc : vt.contains n = true := h (n, col) (List.mem_cons_self _ _)
    simp only [inferGo, hc, if_true]
    exact ih st (fun p hp => h p (List.mem_cons_of_mem _ hp))

theorem inferGo_dask_uncovered (sampler : Sampler)
    (link vt vids : List String) :
    ∀ (cols : List (String × Col)) (st : VType),
      (∃ p ∈ cols, vt.contains p.1 = false) →
      inferGo sampler true link vt vids cols st = Except.error daskErrMsg := by
  intro cols
  induction cols with
  | nil =>
    intro st h
    obtain ⟨p, hp, _⟩ := h
    exact absurd hp (List.not_mem_nil p)
  | cons c rest ih =>
    intro st h
    obtain ⟨n, col⟩ := c
    cases hc : vt.contains n with
    | true =>
      simp only [inferGo, hc, if_true]
      apply ih st
      obtain ⟨p, hp, hpf⟩ := h
      rcases List.mem_cons.mp hp with hhd | hmem
      · rw [hhd] at hpf
        rw [hc] at hpf
        exact absurd hpf (by decide)
      · exact ⟨p, hmem, hpf⟩
    | false =>
      have hcm : n ∉ vt := by simpa using hc
      simp [inferGo, hc, hcm]

/-- Claim C8: inference on a lazily-partitioned (Dask) dataframe fails fast
with the Dask error whenever some column lacks an explicit type, and the
error precedes any heuristic classification (the result carries no
assignments); if every column is explicitly typed, all columns are skipped
before the Dask guard and no error is raised. -/
theorem dask_inference_fails_fast (sampler : Sampler) (df : DF)
    (link variable_types : List String) (time_index : Option String)
    (sti : List (String × List String)) (hD : df.isDask = true) :
    ((∃ p ∈ df.cols, variable_types.contains p.1 = false) →
        infer_variable_types sampler df link variable_types time_index sti
          = Except.error daskErrMsg)
    ∧ ((∀ p ∈ df.cols, variable_types.contains p.1 = true) →
        infer_variable_types sampler df link variable_types time_index sti
          = Except.ok []) := by
  constructor
  · intro h
    rw [infer_variable_types.eq_def, hD]
    exact inferGo_dask_uncovered sampler link variable_types _ df.cols VType.Unknown h
  · intro h
    rw [infer_variable_types.eq_def, hD]
    exact inferGo_dask_all_covered sampler link variable_types _ df.cols VType.Unknown h

/-- Witness for claim C8: a one-column Dask dataframe errors without explicit
types and succeeds (with no inferred assignments) when its column is
explicitly typed. -/
theorem dask_inference_fails_fast_witness :
    infer_variable_types takeSampler
        ⟨true, [("x", ⟨Dtype.int64, [Val.vNum 1]⟩)]⟩ [] [] none []
      = Except.error daskErrMsg
    ∧ infer_variable_types takeSampler
        ⟨true, [("x", ⟨Dtype.int64, [Val.vNum 1]⟩)]⟩ [] ["x"] none []
      = Except.ok [] := by
  constructor
  · apply (dask_inference_fails_fast takeSampler
        ⟨true, [("x", ⟨Dtype.int64, [Val.vNum 1]⟩)]⟩ [] [] none [] rfl).1
    exact ⟨("x", ⟨Dtype.int64, [Val.vNum 1]⟩), by decide, rfl⟩
  · apply (dask_inference_fails_fast takeSampler
        ⟨true, [("x", ⟨Dtype.int64, [Val.vNum 1]⟩)]⟩ [] ["x"] none [] rfl).2
    intro p hp
    rw [List.mem_singleton] at hp
    rw [hp]
    rfl

/-- Claim C7: if a column's storage is not a timestamp representation and all
its non-missing values parse strictly as numeric, the Datetime Detector
returns false (in particular on all-digit-string columns), and the
permissive timestamp parse is attempted only when the strict numeric parse
fails and the storage is string/object-like. -/
theorem datetime_detector_numeric_gate (col : Col)
    (hdt : strContains (dtypeName col.dtype) "datetime" = false) :
    ((∀ v ∈ col.vals, isna v = true ∨ to_numeric_raises v = false) →
        col_is_datetime col = false)
    ∧ ((col_is_datetime_instr col).2 = true →
        (col.vals.filter (fun v => !isna v)).any to_numeric_raises = true
        ∧ (strContains (dtypeName col.dtype) "str"
            || strContains (dtypeName col.dtype) "object") = true) := by
  constructor
  · intro hall
    have hpd : isPyDatetime (col.vals.headD Val.vNaN) = false := by
      cases hv : col.vals with
      | nil => rfl
      | cons x xs =>
        have hx := hall x (by rw [hv]; exact List.mem_cons_self _ _)
        have hneq : isPyDatetime x = false := by
          rcases hx with hna | hnr
          · cases x <;> simp_all [isna, isPyDatetime]
          · cases x <;> simp_all [to_numeric_raises, isna, to_numeric_coerce, isPyDatetime]
        rw [List.headD_cons]
        exact hneq
    have hany : (col.vals.filter (fun v => !isna v)).any to_numeric_raises = false := by
      rw [List.any_eq_false]
      intro v hv
      rw [List.mem_filter] at hv
      rcases hall v hv.1 with hna | hnr
      · rw [hna] at hv
        simp at hv
      · simp [hnr]
    rw [col_is_datetime]
    simp only [col_is_datetime_instr, hdt, hpd, hany, Bool.false_or, Bool.and_false]
    simp
  · intro hatt
    simp only [col_is_datetime_instr] at hatt
    split at hatt
    · simp at hatt
    · split at hatt
      next hc2 =>
        split at hatt
        next hc3 => exact ⟨by simpa using hc2, by simpa using hc3⟩
        next => simp at hatt
      next => simp at hatt

/-- Witness for claim C7 on a column of pure digit-strings (zip codes). -/
theorem datetime_detector_numeric_gate_witness :
    col_is_datetime ⟨Dtype.object, [Val.vStr "90210", Val.vStr "12345"]⟩ = false := by
  exact (datetime_detector_numeric_gate
      ⟨Dtype.object, [Val.vStr "90210", Val.vStr "12345"]⟩ (by decide)).1 (by decide)

theorem convertEntry_noop_of_compatible (c : Col) (t : VType) (kw : ConvKwargs)
    (h : storageCompatible c t = true) :
    convertEntryInstr false c t kw = Except.ok (c, 0) := by
  cases t <;>
    first
    | rfl
    | simp_all [storageCompatible, convertEntryInstr, isSub]

theorem dfUpdate_self : ∀ (df : List (String × Col)) (var : String) (c : Col),
    df.lookup var = some c → dfUpdate df var c = df
  | [], _, _, h => by simp [List.lookup] at h
  | (n, c0) :: rest, var, c, h => by
    rw [List.lookup] at h
    cases hn : (var == n) with
    | true =>
      simp only [hn] at h
      have hc : c0 = c := by simpa using h
      simp [dfUpdate, hn, hc]
    | false =>
      simp only [hn] at h
      simp [dfUpdate, hn, dfUpdate_self rest var c h]

theorem convert_all_noop (df : List (String × Col)) :
    ∀ (vt : List (String × VType × ConvKwargs)),
      (∀ e ∈ vt, ∃ c, df.lookup e.1 = some c ∧ storageCompatible c e.2.1 = true) →
      convert_all_variable_data false df vt = Except.ok df
  | [], _ => rfl
  | (var, t, kw) :: rest, h => by
    obtain ⟨c, hlk, hcompat⟩ := h (var, t, kw) (List.mem_cons_self _ _)
    rw [convert_all_variable_data, hlk]
    show (match convertEntryInstr false c t kw with
          | Except.error e => Except.error e
          | Except.ok (colNew, _) =>
            convert_all_variable_data false (dfUpdate df var colNew) rest)
        = Except.ok df
    rw [convertEntry_noop_of_compatible c t kw hcompat]
    show convert_all_variable_data false (dfUpdate df var c) rest = Except.ok df
    rw [dfUpdate_self df var c hlk]
    exact convert_all_noop df rest (fun e he => h e (List.mem_cons_of_mem _ he))

/-- Claim C6: when every entry of the type-assignment map targets a column
whose storage is already compatible with its assigned type (numeric storage
for a Numeric target, categorical-coded storage for a Discrete-kind target,
timestamp storage for a Datetime target), each loop body of the Conversion
Driver skips the Type Converter and leaves the column unchanged, the driver
returns the dataset unchanged, and running the driver twice with the same
map yields the same dataset as running it once. -/
theorem driver_noop_on_compatible_storage (df : List (String × Col))
    (vt : List (String × VType × ConvKwargs))
    (h : ∀ e ∈ vt, ∃ c, df.lookup e.1 = some c ∧ storageCompatible c e.2.1 = true) :
    (∀ (c : Col) (t : VType) (kw : ConvKwargs), storageCompatible c t = true →
        convertEntryInstr false c t kw = Except.ok (c, 0))
    ∧ convert_all_variable_data false df vt = Except.ok df
    ∧ (convert_all_variable_data false df vt).bind
        (fun d => convert_all_variable_data false d vt)
      = convert_all_variable_data false df vt := by
  have h2 := convert_all_noop df vt h
  refine ⟨fun c t kw hc => convertEntry_noop_of_compatible c t kw hc, h2, ?_⟩
  rw [h2]
  show convert_all_variable_data false df vt = Except.ok df
  exact h2

/-- Witness for claim C6 on a one-column dataset whose storage is already
categorical-coded and whose target type is Categorical. -/
theorem driver_noop_on_compatible_storage_witness :
    convert_all_variable_data false [("x", ⟨Dtype.category, [Val.vStr "a"]⟩)]
        [("x", VType.Categorical, noKw)]
      = Except.ok [("x", ⟨Dtype.category, [Val.vStr "a"]⟩)] := by
  refine (driver_noop_on_compatible_storage
      [("x", ⟨Dtype.category, [Val.vStr "a"]⟩)] [("x", VType.Categorical, noKw)] ?_).2.1
  intro e he
  rw [List.mem_singleton] at he
  rw [he]
  exact ⟨⟨Dtype.category, [Val.vStr "a"]⟩, rfl, rfl⟩

unseal Rat.add Rat.mul Rat.inv Rat.sub in
/-- Claim C4, counterexample: on the numeric column `[1, 2, 3, 4]` the
statistics report `second_quartile = 13/4`, which is the 0.75 quantile, while
the 0.5 quantile (the median) is `5/2`; the claim that `second_quartile`
equals the median is therefore false. -/
theorem second_quartile_counterexample :
    ((okValue (generate_statistics
          [("n", ⟨Dtype.int64, [Val.vNum 1, Val.vNum 2, Val.vNum 3, Val.vNum 4]⟩)]
          [("n", VType.Numeric)])).bind (fun s => s.lookup "n")).bind
        (fun kv => kv.lookup "second_quartile")
      = some (StatVal.num (some (13 / 4)))
    ∧ seriesQuantile [1, 2, 3, 4] (50 / 100) = some (5 / 2)
    ∧ (13 / 4 : ℚ) ≠ 5 / 2 := by
  refine ⟨by decide, by decide, by norm_num⟩

/-- Claim C4 (amended): for a Numeric-typed column (whose float cast
succeeds), `first_quartile` is the 0.25 quantile, while `second_quartile`
and `third_quartile` are both drawn from `quant_values[2]` — the 0.75
quantile — so `second_quartile` is the 0.75 quantile, not the median. -/
theorem quartile_assignment_amended (col : Col) (castCol : List Val)
    (h : astypeFloat col.vals = Except.ok castCol) :
    (okValue (statsForColumn col VType.Numeric)).bind
        (fun kv => kv.lookup "first_quartile")
      = some (StatVal.num (seriesQuantile (ratsOf castCol) (25 / 100)))
    ∧ (okValue (statsForColumn col VType.Numeric)).bind
        (fun kv => kv.lookup "second_quartile")
      = some (StatVal.num (seriesQuantile (ratsOf castCol) (75 / 100)))
    ∧ (okValue (statsForColumn col VType.Numeric)).bind
        (fun kv => kv.lookup "third_quartile")
      = some (StatVal.num (seriesQuantile (ratsOf castCol) (75 / 100))) := by
  have hb : statsForColumn col VType.Numeric
      = statsTail VType.Numeric castCol
          [("max", StatVal.num (listMax (ratsOf castCol))),
           ("min", StatVal.num (listMin (ratsOf castCol))),
           ("mean", StatVal.num (listMean (ratsOf castCol))),
           ("std", StatVal.sqrtOf (listVariance (ratsOf castCol))),
           ("first_quartile", StatVal.num (seriesQuantile (ratsOf castCol) (25 / 100))),
           ("second_quartile", StatVal.num (seriesQuantile (ratsOf castCol) (75 / 100))),
           ("third_quartile", StatVal.num (seriesQuantile (ratsOf castCol) (75 / 100)))] := by
    rw [statsForColumn]
    simp [statsBranch, h]
  rw [hb]
  simp [statsTail, vtype_isinstance_LatLong, COMMON_STATISTICS, aggCommon, okValue,
    List.lookup]

/-- Witness for claim C4's amended theorem on a one-value numeric column. -/
theorem quartile_assignment_amended_witness :
    (okValue (statsForColumn ⟨Dtype.int64, [Val.vNum 1]⟩ VType.Numeric)).bind
        (fun kv => kv.lookup "second_quartile")
      = some (StatVal.num (seriesQuantile (ratsOf [Val.vNum 1]) (75 / 100))) := by
  exact (quartile_assignment_amended ⟨Dtype.int64, [Val.vNum 1]⟩ [Val.vNum 1] rfl).2.1

end FT
